import Mathlib

/-!
# Verification of the KAYMET TXT-to-SQL assistant core

Shallow embedding, in Lean 4, of the core logic of the repository:

* `utils.is_read_only_sql` — the SQL safety gate (pure keyword denylist);
* `db_utils.insert_message` / `db_utils.get_conversation` — the session store
  (an append-only table of `(session_id, role, content, created_at)` rows,
  read back filtered by session and ordered by `created_at` ascending);
* `main.assistant_endpoint` — the `/chat` multi-turn orchestration loop;
* `main.execute_sql_endpoint` — the `/execute-sql` passthrough endpoint;
* `main.get_chat_history` — the `/chat_history/{session_id}` endpoint.

External collaborators (the LLM decision step, the SQLite engine behind
`utils.execute_sql`, the report / merge LLM calls, JSON serialization of
payloads whose exact text the control flow never inspects) are modelled as
explicit function parameters gathered in `ChatEnv`; database writes are
modelled by explicit state passing, and each executed SQL statement is
recorded in an instrumentation trace so that "this string was (not)
executed" is expressible.
-/

/-! ## SQL safety gate (`utils.is_read_only_sql`) -/

/-- The forbidden keyword list of `utils.is_read_only_sql`
(`forbidden = ["INSERT", "UPDATE", "DELETE", "DROP", "CREATE", "ALTER"]`),
as lists of characters. -/
def forbiddenKeywords : List (List Char) :=
  ["INSERT".data, "UPDATE".data, "DELETE".data, "DROP".data, "CREATE".data, "ALTER".data]

/-- Model of Python's `str.upper()` as a character-wise upper-casing map
(the queries the gate inspects are ASCII SQL text). -/
def pyUpper (s : List Char) : List Char := s.map Char.toUpper

/-- Model of Python's `str.strip()`: remove leading and trailing whitespace.
The loop only ever tests whether the stripped string is empty (Python
truthiness of `gpt_query.strip()`). -/
def String.pyStrip (s : String) : String :=
  ⟨((s.data.dropWhile Char.isWhitespace).reverse.dropWhile Char.isWhitespace).reverse⟩

/-- Embedding of `utils.is_read_only_sql`:
`return not any(keyword in upper_sql for keyword in forbidden)` where
`upper_sql = sql.upper()` and `in` is substring containment. -/
def is_read_only_sql (sql : String) : Bool :=
  !(forbiddenKeywords.any (fun k => decide (k <:+: pyUpper sql.data)))

theorem is_read_only_sql_false_iff (sql : String) :
    is_read_only_sql sql = false ↔ ∃ k ∈ forbiddenKeywords, k <:+: pyUpper sql.data := by
  simp [is_read_only_sql, List.any_eq_true]

/-- An infix of a mapped list is the image of an infix. -/
theorem infix_map_iff {α β : Type} (f : α → β) (k : List β) (l : List α) :
    k <:+: l.map f ↔ ∃ t, t <:+: l ∧ t.map f = k := by
  constructor
  · rintro ⟨p, q, hpq⟩
    rcases List.append_eq_map_iff.mp hpq with ⟨l₁, l₂, hl, hp, hq⟩
    rcases List.map_eq_append_iff.mp hp with ⟨m₁, m₂, hl₁, hm₁, hm₂⟩
    exact ⟨m₂, ⟨m₁, l₂, by simp [hl, hl₁]⟩, hm₂⟩
  · rintro ⟨t, ⟨p, q, hpq⟩, hk⟩
    exact ⟨p.map f, q.map f, by rw [← hk, ← List.map_append, ← List.map_append, hpq]⟩

theorem is_read_only_sql_true_iff (sql : String) :
    is_read_only_sql sql = true ↔
      ∀ k ∈ forbiddenKeywords, ∀ t, t <:+: sql.data → pyUpper t ≠ k := by
  constructor
  · intro h k hk t ht hup
    have hf : ¬ (is_read_only_sql sql = false) := by simp [h]
    rw [is_read_only_sql_false_iff] at hf
    exact hf ⟨k, hk, by
      rw [← hup]
      exact (infix_map_iff Char.toUpper (pyUpper t) sql.data).mpr ⟨t, ht, rfl⟩⟩
  · intro h
    by_contra hne
    have hf : is_read_only_sql sql = false := by
      cases hb : is_read_only_sql sql
      · rfl
      · exact absurd hb hne
    rcases (is_read_only_sql_false_iff sql).mp hf with ⟨k, hk, hinf⟩
    rcases (infix_map_iff Char.toUpper k sql.data).mp hinf with ⟨t, ht, hup⟩
    exact h k hk t ht hup

/-- C1: `is_read_only_sql` returns `false` exactly when the upper-cased input
contains one of the literal forbidden substrings `INSERT, UPDATE, DELETE, DROP,
CREATE, ALTER`, and returns `true` exactly when the input contains no
case-variant of any of them; the function is pure, its result a function of
the input string alone. -/
theorem C1_safety_gate_totality (s : String) :
    (is_read_only_sql s = false ↔ ∃ k ∈ forbiddenKeywords, k <:+: pyUpper s.data) ∧
    (is_read_only_sql s = true ↔
      ∀ k ∈ forbiddenKeywords, ∀ t, t <:+: s.data → pyUpper t ≠ k) :=
  ⟨is_read_only_sql_false_iff s, is_read_only_sql_true_iff s⟩

example : is_read_only_sql "SELECT * FROM Products" = true := by decide
example : is_read_only_sql "select * from products; DROP TABLE Products" = false := by decide
example : is_read_only_sql "DELETE FROM Products" = false := by decide

/-! ## Session store (`db_utils`) -/

/-- One row of the `conversation_messages` table:
`(session_id TEXT, role TEXT, content TEXT, created_at DATETIME)`. Rows are
modelled in rowid (insertion) order; `created_at` is an abstract monotone
store clock value. -/
structure StoredMsg where
  session_id : String
  role : String
  content : String
  created_at : Nat
deriving Repr, DecidableEq

/-- A `{role, content}` record as returned by `db_utils.get_conversation`. -/
structure ChatMsg where
  role : String
  content : String
deriving Repr, DecidableEq

/-- A `{role, content, created_at}` record as returned by
`db_utils.get_conversation_with_timestamp`. -/
structure TimedMsg where
  role : String
  content : String
  created_at : Nat
deriving Repr, DecidableEq

/-- Embedding of `db_utils.insert_message`: a single atomic `INSERT` appending
one row to the table; `created_at` (SQLite `DEFAULT CURRENT_TIMESTAMP`) is the
store clock at insertion time, passed explicitly. -/
def insert_message (db : List StoredMsg) (session_id role content : String)
    (now : Nat) : List StoredMsg :=
  db ++ [⟨session_id, role, content, now⟩]

/-- Stable insertion of a row into a `created_at`-ordered list: the row goes
before the first strictly-later row and after every earlier-inserted row with
an earlier-or-equal stamp. -/
def insertByStamp (m : StoredMsg) : List StoredMsg → List StoredMsg
  | [] => [m]
  | x :: xs =>
    if m.created_at ≤ x.created_at then m :: x :: xs else x :: insertByStamp m xs

/-- Stable sort by `created_at` over rows listed in rowid order: the model of
`ORDER BY created_at ASC`, with rows of equal stamp kept in rowid order. -/
def sortByStamp : List StoredMsg → List StoredMsg
  | [] => []
  | x :: xs => insertByStamp x (sortByStamp xs)

/-- The rows of one session, in rowid (insertion) order:
`WHERE session_id=?`. -/
def sessionRows (db : List StoredMsg) (sid : String) : List StoredMsg :=
  db.filter (fun r => decide (r.session_id = sid))

/-- Embedding of `db_utils.get_conversation`:
`SELECT role, content FROM conversation_messages WHERE session_id=?
ORDER BY created_at ASC`, each row materialized as a `{role, content}`
record. -/
def get_conversation (db : List StoredMsg) (sid : String) : List ChatMsg :=
  (sortByStamp (sessionRows db sid)).map (fun r => ⟨r.role, r.content⟩)

/-- Modelled from the spec: `db_utils.get_conversation_with_timestamp` is
called by `main.get_chat_history` but its definition is not among the provided
source files; per the spec, `readAllWithTimestamp(sessionId)` is "same as
above [`readAll`] but each entry also carries its creation timestamp". -/
def get_conversation_with_timestamp (db : List StoredMsg) (sid : String) :
    List TimedMsg :=
  (sortByStamp (sessionRows db sid)).map (fun r => ⟨r.role, r.content, r.created_at⟩)

/-- Rows already in non-decreasing stamp order are left unchanged by the
stable sort. -/
theorem sortByStamp_eq_self (l : List StoredMsg)
    (h : l.Pairwise (fun a b => a.created_at ≤ b.created_at)) :
    sortByStamp l = l := by
  induction l with
  | nil => rfl
  | cons x xs ih =>
    rw [List.pairwise_cons] at h
    rw [sortByStamp, ih h.2]
    cases xs with
    | nil => rfl
    | cons y ys =>
      rw [insertByStamp, if_pos (h.1 y (List.mem_cons_self y ys))]

theorem insertByStamp_ne_nil (m : StoredMsg) (l : List StoredMsg) :
    insertByStamp m l ≠ [] := by
  cases l with
  | nil => simp [insertByStamp]
  | cons x xs =>
    rw [insertByStamp]
    split <;> simp

theorem sortByStamp_eq_nil_iff (l : List StoredMsg) :
    sortByStamp l = [] ↔ l = [] := by
  cases l with
  | nil => simp [sortByStamp]
  | cons x xs =>
    simp only [sortByStamp]
    exact ⟨fun h => absurd h (insertByStamp_ne_nil x (sortByStamp xs)), fun h => by simp at h⟩

theorem mem_insertByStamp (a m : StoredMsg) (l : List StoredMsg) :
    a ∈ insertByStamp m l ↔ a = m ∨ a ∈ l := by
  induction l with
  | nil => simp [insertByStamp]
  | cons x xs ih =>
    rw [insertByStamp]
    split
    · simp
    · simp only [List.mem_cons, ih]
      tauto

theorem mem_sortByStamp (a : StoredMsg) (l : List StoredMsg) :
    a ∈ sortByStamp l ↔ a ∈ l := by
  induction l with
  | nil => simp [sortByStamp]
  | cons x xs ih =>
    rw [sortByStamp, mem_insertByStamp]
    simp [ih]

/-- A sequence of `insert_message` calls for one session, folded over the
store state; each item is a `(role, content, stamp)` triple. -/
def insertAll (db : List StoredMsg) (sid : String)
    (items : List (String × String × Nat)) : List StoredMsg :=
  items.foldl (fun d i => insert_message d sid i.1 i.2.1 i.2.2) db

theorem insertAll_eq_append (db : List StoredMsg) (sid : String)
    (items : List (String × String × Nat)) :
    insertAll db sid items =
      db ++ items.map (fun i => StoredMsg.mk sid i.1 i.2.1 i.2.2) := by
  induction items generalizing db with
  | nil => simp [insertAll]
  | cons i is ih =>
    simp only [insertAll, List.foldl_cons, List.map_cons] at *
    rw [ih]
    simp [insert_message]

theorem sessionRows_append (db₁ db₂ : List StoredMsg) (sid : String) :
    sessionRows (db₁ ++ db₂) sid = sessionRows db₁ sid ++ sessionRows db₂ sid :=
  List.filter_append ..

/-- C7: for every session id and every finite sequence of `insert_message`
calls under that id (stamped by a monotone store clock, ties allowed), a
subsequent `get_conversation` returns exactly those messages as
`{role, content}` pairs in call order — equal stamps are broken by insertion
sequence — and for a session id never appended to it returns the empty
sequence rather than an error. -/
theorem C7_append_order (db₀ : List StoredMsg) (sid : String)
    (items : List (String × String × Nat))
    (hempty : sessionRows db₀ sid = [])
    (hmono : items.Pairwise (fun a b => a.2.2 ≤ b.2.2)) :
    get_conversation (insertAll db₀ sid items) sid =
      items.map (fun i => ChatMsg.mk i.1 i.2.1) ∧
    get_conversation db₀ sid = [] := by
  have hrows : sessionRows (insertAll db₀ sid items) sid =
      items.map (fun i => StoredMsg.mk sid i.1 i.2.1 i.2.2) := by
    rw [insertAll_eq_append, sessionRows_append, hempty, List.nil_append]
    unfold sessionRows
    rw [List.filter_eq_self.mpr]
    intro a ha
    rcases List.mem_map.mp ha with ⟨i, hi, rfl⟩
    simp
  constructor
  · unfold get_conversation
    rw [hrows, sortByStamp_eq_self]
    · rw [List.map_map]
      rfl
    · exact List.pairwise_map.mpr hmono
  · unfold get_conversation
    rw [hempty]
    rfl

theorem C7_append_order_witness :
    sessionRows [⟨"other", "user", "x", 5⟩] "s1" = [] ∧
    ([("user", "hi", 7), ("assistant", "yo", 7)] :
        List (String × String × Nat)).Pairwise (fun a b => a.2.2 ≤ b.2.2) ∧
    (get_conversation
        (insertAll [⟨"other", "user", "x", 5⟩] "s1"
          [("user", "hi", 7), ("assistant", "yo", 7)]) "s1" =
        [⟨"user", "hi"⟩, ⟨"assistant", "yo"⟩] ∧
      get_conversation [⟨"other", "user", "x", 5⟩] "s1" = []) :=
  ⟨by decide, by decide, C7_append_order _ _ _ (by decide) (by decide)⟩

/-! ## `/chat_history/{session_id}` (`main.get_chat_history`) -/

/-- Response body of `GET /chat_history/{session_id}`. -/
structure ChatHistoryResponse where
  sessionId : String
  messages : List TimedMsg
deriving Repr, DecidableEq

/-- Embedding of `main.get_chat_history`: load the timestamped conversation
and keep only the messages whose role is `user` or `assistant`. -/
def get_chat_history (db : List StoredMsg) (session_id : String) :
    ChatHistoryResponse :=
  let conversation := get_conversation_with_timestamp db session_id
  let user_assistant_messages :=
    conversation.filter (fun m => decide (m.role = "user" ∨ m.role = "assistant"))
  ⟨session_id, user_assistant_messages⟩

/-- C6: `get_conversation_with_timestamp` returns the same ordered
`{role, content}` sequence as `get_conversation` with each entry additionally
carrying its timestamp, and `GET /chat_history/{session_id}` returns that
session's messages keeping only `user`/`assistant` roles — equivalently, when
every stored role is one of `system`/`user`/`assistant`, with the
system-role messages filtered out. -/
theorem C6_history_views (db : List StoredMsg) (sid : String)
    (hroles : ∀ r ∈ db, r.role = "system" ∨ r.role = "user" ∨ r.role = "assistant") :
    (get_conversation_with_timestamp db sid).map
        (fun e => ChatMsg.mk e.role e.content) = get_conversation db sid ∧
    (get_chat_history db sid).sessionId = sid ∧
    (get_chat_history db sid).messages =
      (get_conversation_with_timestamp db sid).filter
        (fun m => decide (m.role = "user" ∨ m.role = "assistant")) ∧
    (get_chat_history db sid).messages =
      (get_conversation_with_timestamp db sid).filter
        (fun m => !(decide (m.role = "system"))) := by
  refine ⟨?_, rfl, rfl, ?_⟩
  · unfold get_conversation_with_timestamp get_conversation
    rw [List.map_map]
    rfl
  · show List.filter _ _ = List.filter _ _
    apply List.filter_congr
    intro m hm
    have hmem : m ∈ get_conversation_with_timestamp db sid := hm
    unfold get_conversation_with_timestamp at hmem
    rcases List.mem_map.mp hmem with ⟨r, hr, rfl⟩
    have hr' : r ∈ sessionRows db sid := (mem_sortByStamp r _).mp hr
    have hrdb : r ∈ db := List.mem_of_mem_filter hr'
    rcases hroles r hrdb with h | h | h <;> simp [h]

theorem C6_history_views_witness :
    (∀ r ∈ ([⟨"s1", "system", "p", 0⟩, ⟨"s1", "user", "hi", 1⟩,
        ⟨"s1", "assistant", "yo", 2⟩] : List StoredMsg),
      r.role = "system" ∨ r.role = "user" ∨ r.role = "assistant") ∧
    ((get_conversation_with_timestamp
        [⟨"s1", "system", "p", 0⟩, ⟨"s1", "user", "hi", 1⟩,
         ⟨"s1", "assistant", "yo", 2⟩] "s1").map
        (fun e => ChatMsg.mk e.role e.content) =
      get_conversation
        [⟨"s1", "system", "p", 0⟩, ⟨"s1", "user", "hi", 1⟩,
         ⟨"s1", "assistant", "yo", 2⟩] "s1" ∧
    (get_chat_history
        [⟨"s1", "system", "p", 0⟩, ⟨"s1", "user", "hi", 1⟩,
         ⟨"s1", "assistant", "yo", 2⟩] "s1").sessionId = "s1" ∧
    (get_chat_history
        [⟨"s1", "system", "p", 0⟩, ⟨"s1", "user", "hi", 1⟩,
         ⟨"s1", "assistant", "yo", 2⟩] "s1").messages =
      (get_conversation_with_timestamp
        [⟨"s1", "system", "p", 0⟩, ⟨"s1", "user", "hi", 1⟩,
         ⟨"s1", "assistant", "yo", 2⟩] "s1").filter
        (fun m => decide (m.role = "user" ∨ m.role = "assistant")) ∧
    (get_chat_history
        [⟨"s1", "system", "p", 0⟩, ⟨"s1", "user", "hi", 1⟩,
         ⟨"s1", "assistant", "yo", 2⟩] "s1").messages =
      (get_conversation_with_timestamp
        [⟨"s1", "system", "p", 0⟩, ⟨"s1", "user", "hi", 1⟩,
         ⟨"s1", "assistant", "yo", 2⟩] "s1").filter
        (fun m => !(decide (m.role = "system")))) :=
  ⟨by decide, C6_history_views _ _ (by decide)⟩

/-! ## `/chat` orchestration loop (`main.assistant_endpoint`) -/

/-- One result row of `utils.execute_sql`: a record mapping column names to
scalar values (scalars modelled as strings). -/
abbrev Row := List (String × String)

/-- The parsed JSON object produced by the GPT decision call for one turn.
The loop reads it with `data.get("type", "chat")`, `data.get("reply", "")`,
`data.get("query", "")`; `type?` is `none` when the `"type"` key is absent,
`reply` and `query` are the post-`get` strings. -/
structure Decision where
  type? : Option String
  reply : String
  query : String
deriving Repr, DecidableEq

/-- `main.MULTI_TURN_ITERATION_MAX`: maximum iterations allowed for
multi-turn interactions. -/
def MULTI_TURN_ITERATION_MAX : Nat := 8

/-- External collaborators of the `/chat` loop, modelled as oracles:
the GPT decision per turn index, the SQLite engine behind
`utils.execute_sql`, the two report-synthesis LLM calls, the JSON
serializations whose exact text the control flow never inspects, and the
fixed system prompt `build_integrated_system_prompt()`. -/
structure ChatEnv where
  ds : Nat → Decision
  exec : String → List Row
  report : String → List Row → String
  merge : String → String → List Row → String → String
  serializeDecision : Decision → String
  serializeResults : List Row → String
  sysPrompt : String

/-- One entry of `sql_history`:
`{"turn": .., "query": .., "results": .., "steps": ..}`. -/
structure HistEntry where
  turn : Nat
  query : String
  results : List Row
  steps : String
deriving Repr, DecidableEq

/-- The mutable state of one `/chat` invocation: the store and its clock, the
in-memory `conversation` list, the `final_*` accumulators, `turn_count`,
`sql_history` and the `done` flag of `main.assistant_endpoint`, plus an
instrumentation trace `executed` of every SQL string passed to
`utils.execute_sql`. -/
structure LoopState where
  db : List StoredMsg
  now : Nat
  conversation : List ChatMsg
  final_type : Option String
  final_message : String
  final_query : String
  final_results : List Row
  turn_count : Nat
  sql_history : List HistEntry
  executed : List String
  done : Bool

/-- The paired `db_utils.insert_message(...)` / `conversation.append(...)`
steps of the loop: persist one message and mirror it in memory, advancing the
store clock. -/
def pushMsg (sid role content : String) (st : LoopState) : LoopState :=
  { st with
    db := st.db ++ [⟨sid, role, content, st.now⟩]
    now := st.now + 1
    conversation := st.conversation ++ [⟨role, content⟩] }

/-- The accepted-`sql` branch body (CASE B with the gate passed): execute the
query, record the results, synthesize and persist the merged report, extend
`sql_history`, and persist the serialized results as a `system` message. -/
def sqlTurnStep (env : ChatEnv) (sid : String) (d : Decision) (st : LoopState) :
    LoopState :=
  let db_results := env.exec d.query
  let st := { st with
    executed := st.executed ++ [d.query]
    final_results := db_results }
  let final_report := env.report d.query db_results
  let merged := env.merge d.reply d.query db_results final_report
  let st := { st with final_message := merged }
  let st := pushMsg sid "assistant" merged st
  let st := { st with
    sql_history := st.sql_history ++ [⟨st.turn_count, d.query, db_results, merged⟩] }
  pushMsg sid "system" (env.serializeResults db_results) st

/-- The `while not done and turn_count < MULTI_TURN_ITERATION_MAX` loop of
`main.assistant_endpoint`, with `fuel` the remaining iteration budget
(`MULTI_TURN_ITERATION_MAX - turn_count`). Each iteration reads the decision,
persists its raw serialization as an `assistant` message, and dispatches on
`type`: `chat` and `done` terminate with the reply, `sql` with a non-blank
query is gated (rejection terminates with the error reply and forces the
final type to `chat`; acceptance executes and continues), and anything else
terminates with the fixed fallback reply. -/
def runTurns (env : ChatEnv) (sid : String) : Nat → LoopState → LoopState
  | 0, st => st
  | fuel + 1, st =>
    if st.done then st
    else
      let d := env.ds st.turn_count
      let gpt_type := d.type?.getD "chat"
      let st1 := { st with
        turn_count := st.turn_count + 1
        final_type := some gpt_type
        final_query := d.query }
      let st2 := pushMsg sid "assistant" (env.serializeDecision d) st1
      if gpt_type = "chat" then
        { st2 with final_message := d.reply, done := true }
      else if gpt_type = "sql" ∧ d.query.pyStrip ≠ "" then
        if is_read_only_sql d.query = true then
          runTurns env sid fuel (sqlTurnStep env sid d st2)
        else
          { st2 with
            final_message := "Error: Attempted non-read-only query."
            final_type := some "chat"
            done := true }
      else if gpt_type = "done" then
        { st2 with final_message := d.reply, done := true }
      else
        { st2 with final_message := "Got an unexpected response from GPT.", done := true }

/-- Response body of `POST /chat`. -/
structure ChatResponse where
  type : Option String
  final_message : String
  last_query : String
  last_results : List Row
  sql_history : List HistEntry
  turns_executed : Nat
deriving Repr, DecidableEq

/-- One `/chat` invocation's response together with the resulting store
state, clock, and execution trace. -/
structure ChatOutcome where
  resp : ChatResponse
  db : List StoredMsg
  now : Nat
  executed : List String

/-- The pre-loop part of `main.assistant_endpoint`: load the conversation,
seed the system prompt when the session history is empty, append the user's
message, and set up the loop accumulators. -/
def chatInitState (env : ChatEnv) (sessionId message : String)
    (db₀ : List StoredMsg) (t₀ : Nat) : LoopState :=
  let conversation := get_conversation db₀ sessionId
  let seeded : List StoredMsg × List ChatMsg × Nat :=
    if conversation = [] then
      (insert_message db₀ sessionId "system" env.sysPrompt t₀,
       conversation ++ [⟨"system", env.sysPrompt⟩], t₀ + 1)
    else
      (db₀, conversation, t₀)
  { db := insert_message seeded.1 sessionId "user" message seeded.2.2
    now := seeded.2.2 + 1
    conversation := seeded.2.1 ++ [⟨"user", message⟩]
    final_type := none
    final_message := ""
    final_query := ""
    final_results := []
    turn_count := 0
    sql_history := []
    executed := []
    done := false }

/-- Embedding of `main.assistant_endpoint` (`POST /chat`): seed/load the
session, run the multi-turn loop, and assemble the response from the loop
accumulators. -/
def assistant_endpoint (env : ChatEnv) (sessionId message : String)
    (db₀ : List StoredMsg) (t₀ : Nat) : ChatOutcome :=
  let stF := runTurns env sessionId MULTI_TURN_ITERATION_MAX
    (chatInitState env sessionId message db₀ t₀)
  { resp := { type := stF.final_type
              final_message := stF.final_message
              last_query := stF.final_query
              last_results := stF.final_results
              sql_history := stF.sql_history
              turns_executed := stF.turn_count }
    db := stF.db
    now := stF.now
    executed := stF.executed }

/-! ## `/execute-sql` (`main.execute_sql_endpoint`) -/

/-- Embedding of `utils.execute_sql`: the statement is handed to the engine
exactly once; the second component is the instrumentation trace of executed
SQL strings. -/
def execute_sql (engine : String → List Row) (sql : String) :
    List Row × List String :=
  (engine sql, [sql])

/-- Embedding of `main.execute_sql_endpoint` (`POST /execute-sql`): the
caller-supplied SQL string is passed to `utils.execute_sql` unchanged and its
rows are returned. -/
def execute_sql_endpoint (engine : String → List Row) (sql : String) :
    List Row × List String :=
  execute_sql engine sql

/-- C9: `POST /execute-sql` hands the caller's SQL string to the Query
Executor unchanged and executes it exactly once, with no Safety Gate check —
in particular a statement the gate classifies as non-read-only, such as
`DELETE FROM Products`, is still executed; the gate protects only the `/chat`
path. -/
theorem C9_execute_sql_bypasses_gate :
    (∀ (engine : String → List Row) (sql : String),
      execute_sql_endpoint engine sql = (engine sql, [sql])) ∧
    is_read_only_sql "DELETE FROM Products" = false ∧
    (∀ engine : String → List Row,
      (execute_sql_endpoint engine "DELETE FROM Products").2 =
        ["DELETE FROM Products"]) :=
  ⟨fun _ _ => rfl, by decide, fun _ => rfl⟩

/-! ### Loop step lemmas -/

@[simp] theorem pushMsg_done (sid role content : String) (st : LoopState) :
    (pushMsg sid role content st).done = st.done := rfl

@[simp] theorem pushMsg_turn_count (sid role content : String) (st : LoopState) :
    (pushMsg sid role content st).turn_count = st.turn_count := rfl

@[simp] theorem pushMsg_executed (sid role content : String) (st : LoopState) :
    (pushMsg sid role content st).executed = st.executed := rfl

@[simp] theorem chatInitState_done (env : ChatEnv) (sid msg : String)
    (db₀ : List StoredMsg) (t₀ : Nat) :
    (chatInitState env sid msg db₀ t₀).done = false := rfl

@[simp] theorem chatInitState_turn_count (env : ChatEnv) (sid msg : String)
    (db₀ : List StoredMsg) (t₀ : Nat) :
    (chatInitState env sid msg db₀ t₀).turn_count = 0 := rfl

@[simp] theorem chatInitState_executed (env : ChatEnv) (sid msg : String)
    (db₀ : List StoredMsg) (t₀ : Nat) :
    (chatInitState env sid msg db₀ t₀).executed = [] := rfl

@[simp] theorem chatInitState_sql_history (env : ChatEnv) (sid msg : String)
    (db₀ : List StoredMsg) (t₀ : Nat) :
    (chatInitState env sid msg db₀ t₀).sql_history = [] := rfl

@[simp] theorem chatInitState_final_results (env : ChatEnv) (sid msg : String)
    (db₀ : List StoredMsg) (t₀ : Nat) :
    (chatInitState env sid msg db₀ t₀).final_results = [] := rfl

/-- A decision the loop accepts as an executable `sql` turn: the `type` field
is `"sql"`, the query is non-blank after trimming, and the Safety Gate
classifies it as read-only. -/
def acceptedSql (d : Decision) : Prop :=
  d.type? = some "sql" ∧ d.query.pyStrip ≠ "" ∧ is_read_only_sql d.query = true

instance (d : Decision) : Decidable (acceptedSql d) := by
  unfold acceptedSql
  infer_instance

/-- The full state transformation of one accepted `sql` iteration: increment
the counter, record the decision payload, persist the raw decision, then run
the accepted-`sql` branch. -/
def acceptedStep (env : ChatEnv) (sid : String) (st : LoopState) : LoopState :=
  let d := env.ds st.turn_count
  sqlTurnStep env sid d
    (pushMsg sid "assistant" (env.serializeDecision d)
      { st with
        turn_count := st.turn_count + 1
        final_type := some (d.type?.getD "chat")
        final_query := d.query })

@[simp] theorem acceptedStep_done (env : ChatEnv) (sid : String) (st : LoopState) :
    (acceptedStep env sid st).done = st.done := rfl

@[simp] theorem acceptedStep_turn_count (env : ChatEnv) (sid : String) (st : LoopState) :
    (acceptedStep env sid st).turn_count = st.turn_count + 1 := rfl

@[simp] theorem acceptedStep_executed (env : ChatEnv) (sid : String) (st : LoopState) :
    (acceptedStep env sid st).executed =
      st.executed ++ [(env.ds st.turn_count).query] := rfl

@[simp] theorem acceptedStep_final_results (env : ChatEnv) (sid : String) (st : LoopState) :
    (acceptedStep env sid st).final_results =
      env.exec (env.ds st.turn_count).query := rfl

@[simp] theorem acceptedStep_sql_history_length (env : ChatEnv) (sid : String)
    (st : LoopState) :
    (acceptedStep env sid st).sql_history.length = st.sql_history.length + 1 := by
  show (st.sql_history ++ [_]).length = st.sql_history.length + 1
  simp

/-- Unfolding one accepted `sql` iteration of the loop. -/
theorem runTurns_accept_step (env : ChatEnv) (sid : String) (fuel : Nat)
    (st : LoopState) (hdone : st.done = false)
    (hty : (env.ds st.turn_count).type? = some "sql")
    (hne : (env.ds st.turn_count).query.pyStrip ≠ "")
    (hgate : is_read_only_sql (env.ds st.turn_count).query = true) :
    runTurns env sid (fuel + 1) st =
      runTurns env sid fuel (acceptedStep env sid st) := by
  simp [runTurns, acceptedStep, hdone, hty, hne, hgate]

/-- Unfolding one `chat`-classified iteration (the `type` field is `"chat"`,
or absent so that `data.get("type", "chat")` defaults to `"chat"`). -/
theorem runTurns_chat_step (env : ChatEnv) (sid : String) (fuel : Nat)
    (st : LoopState) (hdone : st.done = false)
    (hty : (env.ds st.turn_count).type?.getD "chat" = "chat") :
    (runTurns env sid (fuel + 1) st).final_message = (env.ds st.turn_count).reply ∧
    (runTurns env sid (fuel + 1) st).final_type = some "chat" ∧
    (runTurns env sid (fuel + 1) st).final_query = (env.ds st.turn_count).query ∧
    (runTurns env sid (fuel + 1) st).turn_count = st.turn_count + 1 ∧
    (runTurns env sid (fuel + 1) st).final_results = st.final_results ∧
    (runTurns env sid (fuel + 1) st).sql_history = st.sql_history ∧
    (runTurns env sid (fuel + 1) st).executed = st.executed ∧
    (runTurns env sid (fuel + 1) st).done = true := by
  simp [runTurns, pushMsg, hdone, hty]

/-- Unfolding one `done`-classified iteration. -/
theorem runTurns_done_step (env : ChatEnv) (sid : String) (fuel : Nat)
    (st : LoopState) (hdone : st.done = false)
    (hty : (env.ds st.turn_count).type?.getD "chat" = "done") :
    (runTurns env sid (fuel + 1) st).final_message = (env.ds st.turn_count).reply ∧
    (runTurns env sid (fuel + 1) st).final_type = some "done" ∧
    (runTurns env sid (fuel + 1) st).final_query = (env.ds st.turn_count).query ∧
    (runTurns env sid (fuel + 1) st).turn_count = st.turn_count + 1 ∧
    (runTurns env sid (fuel + 1) st).final_results = st.final_results ∧
    (runTurns env sid (fuel + 1) st).sql_history = st.sql_history ∧
    (runTurns env sid (fuel + 1) st).executed = st.executed ∧
    (runTurns env sid (fuel + 1) st).done = true := by
  simp [runTurns, pushMsg, hdone, hty]

/-- Unfolding one `sql` iteration whose non-blank query the Safety Gate
rejects. -/
theorem runTurns_reject_step (env : ChatEnv) (sid : String) (fuel : Nat)
    (st : LoopState) (hdone : st.done = false)
    (hty : (env.ds st.turn_count).type? = some "sql")
    (hne : (env.ds st.turn_count).query.pyStrip ≠ "")
    (hgate : is_read_only_sql (env.ds st.turn_count).query = false) :
    (runTurns env sid (fuel + 1) st).final_message =
      "Error: Attempted non-read-only query." ∧
    (runTurns env sid (fuel + 1) st).final_type = some "chat" ∧
    (runTurns env sid (fuel + 1) st).final_query = (env.ds st.turn_count).query ∧
    (runTurns env sid (fuel + 1) st).turn_count = st.turn_count + 1 ∧
    (runTurns env sid (fuel + 1) st).final_results = st.final_results ∧
    (runTurns env sid (fuel + 1) st).sql_history = st.sql_history ∧
    (runTurns env sid (fuel + 1) st).executed = st.executed ∧
    (runTurns env sid (fuel + 1) st).done = true := by
  simp [runTurns, pushMsg, hdone, hty, hne, hgate]

/-- Unfolding one iteration whose decision falls to the fallback branch:
`type` is `"sql"` with a blank query, or a present `type` that is none of
`chat`/`sql`/`done`. -/
theorem runTurns_fallback_step (env : ChatEnv) (sid : String) (fuel : Nat)
    (st : LoopState) (hdone : st.done = false)
    (hbad :
      ((env.ds st.turn_count).type? = some "sql" ∧
        (env.ds st.turn_count).query.pyStrip = "") ∨
      (∃ t, (env.ds st.turn_count).type? = some t ∧
        t ≠ "chat" ∧ t ≠ "sql" ∧ t ≠ "done")) :
    (runTurns env sid (fuel + 1) st).final_message =
      "Got an unexpected response from GPT." ∧
    (runTurns env sid (fuel + 1) st).final_query = (env.ds st.turn_count).query ∧
    (runTurns env sid (fuel + 1) st).turn_count = st.turn_count + 1 ∧
    (runTurns env sid (fuel + 1) st).final_results = st.final_results ∧
    (runTurns env sid (fuel + 1) st).sql_history = st.sql_history ∧
    (runTurns env sid (fuel + 1) st).executed = st.executed ∧
    (runTurns env sid (fuel + 1) st).done = true := by
  rcases hbad with ⟨hty, hq⟩ | ⟨t, hty, hc, hs, hd⟩
  · simp [runTurns, pushMsg, hdone, hty, hq]
  · simp [runTurns, pushMsg, hdone, hty, hc, hs, hd]

/-- The `k`-fold iteration of `acceptedStep`: the loop state after a prefix
of `k` accepted `sql` turns. -/
def iterateAccepted (env : ChatEnv) (sid : String) : Nat → LoopState → LoopState
  | 0, st => st
  | k + 1, st => iterateAccepted env sid k (acceptedStep env sid st)

theorem iterateAccepted_done (env : ChatEnv) (sid : String) (k : Nat)
    (st : LoopState) : (iterateAccepted env sid k st).done = st.done := by
  induction k generalizing st with
  | zero => rfl
  | succ k ih => rw [iterateAccepted, ih]; rfl

theorem iterateAccepted_turn_count (env : ChatEnv) (sid : String) (k : Nat)
    (st : LoopState) :
    (iterateAccepted env sid k st).turn_count = st.turn_count + k := by
  induction k generalizing st with
  | zero => rfl
  | succ k ih =>
    rw [iterateAccepted, ih]
    simp
    omega

theorem iterateAccepted_sql_history_length (env : ChatEnv) (sid : String)
    (k : Nat) (st : LoopState) :
    (iterateAccepted env sid k st).sql_history.length =
      st.sql_history.length + k := by
  induction k generalizing st with
  | zero => rfl
  | succ k ih =>
    rw [iterateAccepted, ih]
    simp
    omega

theorem iterateAccepted_executed (env : ChatEnv) (sid : String) (k : Nat)
    (st : LoopState) :
    (iterateAccepted env sid k st).executed =
      st.executed ++ (List.range k).map (fun i => (env.ds (st.turn_count + i)).query) := by
  induction k generalizing st with
  | zero => simp [iterateAccepted]
  | succ k ih =>
    rw [iterateAccepted, ih]
    simp only [acceptedStep_executed, acceptedStep_turn_count,
      List.range_succ_eq_map, List.map_cons, List.map_map, List.append_assoc,
      List.cons_append, List.nil_append, Nat.add_zero]
    congr 2
    apply List.map_congr_left
    intro i _
    have h : st.turn_count + 1 + i = st.turn_count + (i + 1) := by omega
    simp [Function.comp, h]

theorem iterateAccepted_final_results (env : ChatEnv) (sid : String) (k : Nat)
    (st : LoopState) :
    (iterateAccepted env sid (k + 1) st).final_results =
      env.exec (env.ds (st.turn_count + k)).query := by
  induction k generalizing st with
  | zero => rw [iterateAccepted, iterateAccepted]; simp
  | succ k ih =>
    rw [iterateAccepted, ih]
    simp only [acceptedStep_turn_count]
    have h : st.turn_count + 1 + k = st.turn_count + (k + 1) := by omega
    rw [h]

/-- Running the loop across a prefix of `k` accepted `sql` turns. -/
theorem runTurns_accepted_prefix (env : ChatEnv) (sid : String) (k : Nat) :
    ∀ (fuel : Nat) (st : LoopState), k ≤ fuel → st.done = false →
    (∀ i < k, acceptedSql (env.ds (st.turn_count + i))) →
    runTurns env sid fuel st =
      runTurns env sid (fuel - k) (iterateAccepted env sid k st) := by
  induction k with
  | zero => intro fuel st _ _ _; simp [iterateAccepted]
  | succ k ih =>
    intro fuel st hk hdone hacc
    obtain ⟨fuel', rfl⟩ : ∃ f, fuel = f + 1 := ⟨fuel - 1, by omega⟩
    have h0 := hacc 0 (Nat.succ_pos k)
    rw [Nat.add_zero] at h0
    rw [runTurns_accept_step env sid fuel' st hdone h0.1 h0.2.1 h0.2.2]
    rw [show fuel' + 1 - (k + 1) = fuel' - k from by omega]
    rw [iterateAccepted]
    apply ih fuel' (acceptedStep env sid st) (by omega)
    · rw [acceptedStep_done, hdone]
    · intro i hi
      have := hacc (i + 1) (by omega)
      rw [acceptedStep_turn_count]
      rw [show st.turn_count + 1 + i = st.turn_count + (i + 1) from by omega]
      exact this

theorem prefix_queries_all_read_only (env : ChatEnv) (k : Nat)
    (hacc : ∀ i < k, acceptedSql (env.ds i))
    (hgate : is_read_only_sql (env.ds k).query = false) :
    (env.ds k).query ∉ (List.range k).map (fun i => (env.ds i).query) := by
  intro hmem
  rcases List.mem_map.mp hmem with ⟨i, hir, hq⟩
  have hi := List.mem_range.mp hir
  have hro := (hacc i hi).2.2
  rw [hq, hgate] at hro
  exact Bool.noConfusion hro

/-- C2: if the loop reaches a turn whose decision has type `"sql"` and a
non-blank query that the Safety Gate rejects, the loop stops at that turn,
the rejected query is never executed, the response's `final_message` is the
explicit non-read-only error, and the response's `type` is forced to
`"chat"`. -/
theorem C2_gate_rejection_halts (env : ChatEnv) (sid msg : String)
    (db₀ : List StoredMsg) (t₀ k : Nat)
    (hk : k < MULTI_TURN_ITERATION_MAX)
    (hacc : ∀ i < k, acceptedSql (env.ds i))
    (hty : (env.ds k).type? = some "sql")
    (hne : (env.ds k).query.pyStrip ≠ "")
    (hgate : is_read_only_sql (env.ds k).query = false) :
    (assistant_endpoint env sid msg db₀ t₀).resp.final_message =
      "Error: Attempted non-read-only query." ∧
    (assistant_endpoint env sid msg db₀ t₀).resp.type = some "chat" ∧
    (assistant_endpoint env sid msg db₀ t₀).resp.turns_executed = k + 1 ∧
    (assistant_endpoint env sid msg db₀ t₀).executed =
      (List.range k).map (fun i => (env.ds i).query) ∧
    (env.ds k).query ∉ (assistant_endpoint env sid msg db₀ t₀).executed := by
  have hpre := runTurns_accepted_prefix env sid k MULTI_TURN_ITERATION_MAX
    (chatInitState env sid msg db₀ t₀) (le_of_lt hk) (by simp)
    (by intro i hi; simpa using hacc i hi)
  obtain ⟨f, hf⟩ : ∃ f, MULTI_TURN_ITERATION_MAX - k = f + 1 :=
    ⟨MULTI_TURN_ITERATION_MAX - k - 1, by omega⟩
  have hdone' : (iterateAccepted env sid k (chatInitState env sid msg db₀ t₀)).done = false := by
    rw [iterateAccepted_done]; simp
  have hturn' : (iterateAccepted env sid k (chatInitState env sid msg db₀ t₀)).turn_count = k := by
    rw [iterateAccepted_turn_count]; simp
  have hrej := runTurns_reject_step env sid f
    (iterateAccepted env sid k (chatInitState env sid msg db₀ t₀)) hdone'
    (by rw [hturn']; exact hty) (by rw [hturn']; exact hne)
    (by rw [hturn']; exact hgate)
  rw [hturn'] at hrej
  have hfull : runTurns env sid MULTI_TURN_ITERATION_MAX
      (chatInitState env sid msg db₀ t₀) =
      runTurns env sid (f + 1)
        (iterateAccepted env sid k (chatInitState env sid msg db₀ t₀)) := by
    rw [hpre, hf]
  have hexec : (iterateAccepted env sid k (chatInitState env sid msg db₀ t₀)).executed =
      (List.range k).map (fun i => (env.ds i).query) := by
    rw [iterateAccepted_executed]
    simp only [chatInitState_executed, chatInitState_turn_count, Nat.zero_add,
      List.nil_append]
  refine ⟨?_, ?_, ?_, ?_, ?_⟩
  · show (runTurns env sid MULTI_TURN_ITERATION_MAX
      (chatInitState env sid msg db₀ t₀)).final_message = _
    rw [hfull]
    exact hrej.1
  · show (runTurns env sid MULTI_TURN_ITERATION_MAX
      (chatInitState env sid msg db₀ t₀)).final_type = _
    rw [hfull]
    exact hrej.2.1
  · show (runTurns env sid MULTI_TURN_ITERATION_MAX
      (chatInitState env sid msg db₀ t₀)).turn_count = _
    rw [hfull, hrej.2.2.2.1]
  · show (runTurns env sid MULTI_TURN_ITERATION_MAX
      (chatInitState env sid msg db₀ t₀)).executed = _
    rw [hfull, hrej.2.2.2.2.2.2.1, hexec]
  · show (env.ds k).query ∉ (runTurns env sid MULTI_TURN_ITERATION_MAX
      (chatInitState env sid msg db₀ t₀)).executed
    rw [hfull, hrej.2.2.2.2.2.2.1, hexec]
    exact prefix_queries_all_read_only env k hacc hgate

/-- C3: when every decision is an accepted `sql` turn, one `/chat` invocation
still terminates (the embedded loop is a total function) after exactly
`MULTI_TURN_ITERATION_MAX = 8` iterations, with `turns_executed = 8`, and the
cap bounds the Query Results at one per `sql` turn: `sql_history` has exactly
one entry per executed turn. -/
theorem C3_iteration_cap (env : ChatEnv) (sid msg : String)
    (db₀ : List StoredMsg) (t₀ : Nat)
    (hall : ∀ i < MULTI_TURN_ITERATION_MAX, acceptedSql (env.ds i)) :
    MULTI_TURN_ITERATION_MAX = 8 ∧
    (assistant_endpoint env sid msg db₀ t₀).resp.turns_executed = 8 ∧
    (assistant_endpoint env sid msg db₀ t₀).resp.sql_history.length = 8 := by
  have hpre := runTurns_accepted_prefix env sid MULTI_TURN_ITERATION_MAX
    MULTI_TURN_ITERATION_MAX (chatInitState env sid msg db₀ t₀) (le_refl _)
    (by simp) (by intro i hi; simpa using hall i hi)
  rw [Nat.sub_self] at hpre
  refine ⟨rfl, ?_, ?_⟩
  · show (runTurns env sid MULTI_TURN_ITERATION_MAX
      (chatInitState env sid msg db₀ t₀)).turn_count = 8
    rw [hpre]
    show (iterateAccepted env sid MULTI_TURN_ITERATION_MAX
      (chatInitState env sid msg db₀ t₀)).turn_count = 8
    rw [iterateAccepted_turn_count]
    simp [MULTI_TURN_ITERATION_MAX]
  · show (runTurns env sid MULTI_TURN_ITERATION_MAX
      (chatInitState env sid msg db₀ t₀)).sql_history.length = 8
    rw [hpre]
    show (iterateAccepted env sid MULTI_TURN_ITERATION_MAX
      (chatInitState env sid msg db₀ t₀)).sql_history.length = 8
    rw [iterateAccepted_sql_history_length]
    simp [MULTI_TURN_ITERATION_MAX]

/-- C4 counterexample: a decision whose `type` field is absent is read back
by `data.get("type", "chat")` as `"chat"`, so the loop terminates with the
decision's own reply (`"Hello!"`), not with the fixed fallback text — the
claim's prediction of the fallback reply for an absent `type` field is false,
and the code's fallback text is `"Got an unexpected response from GPT."`, not
`"Got an unexpected response"`. -/
theorem C4_counterexample_absent_type :
    (assistant_endpoint
      ⟨fun _ => ⟨none, "Hello!", ""⟩, fun _ => [], fun _ _ => "",
       fun _ _ _ _ => "", fun _ => "raw", fun _ => "res", "PROMPT"⟩
      "s1" "hi" [] 0).resp.final_message = "Hello!" ∧
    ("Hello!" : String) ≠ "Got an unexpected response" ∧
    ("Hello!" : String) ≠ "Got an unexpected response from GPT." := by
  refine ⟨by decide, by decide, by decide⟩

/-- C4 (amended): a decision with `type = "sql"` and a blank
(empty-after-strip) query, or with a `type` field that is present but not one
of `chat`/`sql`/`done`, makes the loop emit the fixed fallback reply
`"Got an unexpected response from GPT."`, terminate at that turn without
executing anything, and return a normal response; a decision with an absent
`type` field instead defaults to `"chat"` and terminates with the decision's
own reply. -/
theorem C4_fallback_turn (env : ChatEnv) (sid msg : String)
    (db₀ : List StoredMsg) (t₀ k : Nat)
    (hk : k < MULTI_TURN_ITERATION_MAX)
    (hacc : ∀ i < k, acceptedSql (env.ds i))
    (hbad :
      ((env.ds k).type? = some "sql" ∧ (env.ds k).query.pyStrip = "") ∨
      (∃ t, (env.ds k).type? = some t ∧ t ≠ "chat" ∧ t ≠ "sql" ∧ t ≠ "done")) :
    (assistant_endpoint env sid msg db₀ t₀).resp.final_message =
      "Got an unexpected response from GPT." ∧
    (assistant_endpoint env sid msg db₀ t₀).resp.turns_executed = k + 1 ∧
    (assistant_endpoint env sid msg db₀ t₀).executed =
      (List.range k).map (fun i => (env.ds i).query) := by
  have hpre := runTurns_accepted_prefix env sid k MULTI_TURN_ITERATION_MAX
    (chatInitState env sid msg db₀ t₀) (le_of_lt hk) (by simp)
    (by intro i hi; simpa using hacc i hi)
  obtain ⟨f, hf⟩ : ∃ f, MULTI_TURN_ITERATION_MAX - k = f + 1 :=
    ⟨MULTI_TURN_ITERATION_MAX - k - 1, by omega⟩
  have hdone' : (iterateAccepted env sid k (chatInitState env sid msg db₀ t₀)).done = false := by
    rw [iterateAccepted_done]; simp
  have hturn' : (iterateAccepted env sid k (chatInitState env sid msg db₀ t₀)).turn_count = k := by
    rw [iterateAccepted_turn_count]; simp
  have hfb := runTurns_fallback_step env sid f
    (iterateAccepted env sid k (chatInitState env sid msg db₀ t₀)) hdone'
    (by rw [hturn']; exact hbad)
  rw [hturn'] at hfb
  have hfull : runTurns env sid MULTI_TURN_ITERATION_MAX
      (chatInitState env sid msg db₀ t₀) =
      runTurns env sid (f + 1)
        (iterateAccepted env sid k (chatInitState env sid msg db₀ t₀)) := by
    rw [hpre, hf]
  have hexec : (iterateAccepted env sid k (chatInitState env sid msg db₀ t₀)).executed =
      (List.range k).map (fun i => (env.ds i).query) := by
    rw [iterateAccepted_executed]
    simp only [chatInitState_executed, chatInitState_turn_count, Nat.zero_add,
      List.nil_append]
  refine ⟨?_, ?_, ?_⟩
  · show (runTurns env sid MULTI_TURN_ITERATION_MAX
      (chatInitState env sid msg db₀ t₀)).final_message = _
    rw [hfull]
    exact hfb.1
  · show (runTurns env sid MULTI_TURN_ITERATION_MAX
      (chatInitState env sid msg db₀ t₀)).turn_count = _
    rw [hfull, hfb.2.2.1]
  · show (runTurns env sid MULTI_TURN_ITERATION_MAX
      (chatInitState env sid msg db₀ t₀)).executed = _
    rw [hfull, hfb.2.2.2.2.2.1, hexec]

/-- C5 counterexample: a first-turn decision `{type:"chat", reply:"Hello!",
query:"xyz"}` terminates as a `chat` turn, yet the response's `last_query` is
`"xyz"`, not the empty string — `final_query` is assigned from the decision's
`query` field before the branch on `type` and is never cleared. -/
theorem C5_counterexample_chat_query_leak :
    (assistant_endpoint
      ⟨fun _ => ⟨some "chat", "Hello!", "xyz"⟩, fun _ => [], fun _ _ => "",
       fun _ _ _ _ => "", fun _ => "raw", fun _ => "res", "PROMPT"⟩
      "s1" "hi" [] 0).resp.type = some "chat" ∧
    (assistant_endpoint
      ⟨fun _ => ⟨some "chat", "Hello!", "xyz"⟩, fun _ => [], fun _ _ => "",
       fun _ _ _ _ => "", fun _ => "raw", fun _ => "res", "PROMPT"⟩
      "s1" "hi" [] 0).resp.last_query = "xyz" ∧
    ("xyz" : String) ≠ "" := by
  refine ⟨by decide, by decide, by decide⟩

/-- C5 (amended): when the final turn is classified `chat` or `done`, the
response's `last_query` equals the final decision's `query` field — it is the
empty string exactly when that field is empty (as the system prompt
instructs), not regardless of its content. -/
theorem C5_terminal_last_query (env : ChatEnv) (sid msg : String)
    (db₀ : List StoredMsg) (t₀ k : Nat)
    (hk : k < MULTI_TURN_ITERATION_MAX)
    (hacc : ∀ i < k, acceptedSql (env.ds i))
    (hty : (env.ds k).type?.getD "chat" = "chat" ∨
      (env.ds k).type?.getD "chat" = "done") :
    (assistant_endpoint env sid msg db₀ t₀).resp.last_query = (env.ds k).query ∧
    ((env.ds k).query = "" →
      (assistant_endpoint env sid msg db₀ t₀).resp.last_query = "") ∧
    (assistant_endpoint env sid msg db₀ t₀).resp.turns_executed = k + 1 := by
  have hpre := runTurns_accepted_prefix env sid k MULTI_TURN_ITERATION_MAX
    (chatInitState env sid msg db₀ t₀) (le_of_lt hk) (by simp)
    (by intro i hi; simpa using hacc i hi)
  obtain ⟨f, hf⟩ : ∃ f, MULTI_TURN_ITERATION_MAX - k = f + 1 :=
    ⟨MULTI_TURN_ITERATION_MAX - k - 1, by omega⟩
  have hdone' : (iterateAccepted env sid k (chatInitState env sid msg db₀ t₀)).done = false := by
    rw [iterateAccepted_done]; simp
  have hturn' : (iterateAccepted env sid k (chatInitState env sid msg db₀ t₀)).turn_count = k := by
    rw [iterateAccepted_turn_count]; simp
  have hfull : runTurns env sid MULTI_TURN_ITERATION_MAX
      (chatInitState env sid msg db₀ t₀) =
      runTurns env sid (f + 1)
        (iterateAccepted env sid k (chatInitState env sid msg db₀ t₀)) := by
    rw [hpre, hf]
  have hq : (runTurns env sid (f + 1)
        (iterateAccepted env sid k (chatInitState env sid msg db₀ t₀))).final_query =
      (env.ds k).query ∧
      (runTurns env sid (f + 1)
        (iterateAccepted env sid k (chatInitState env sid msg db₀ t₀))).turn_count =
      k + 1 := by
    rcases hty with hc | hd
    · have hstep := runTurns_chat_step env sid f
        (iterateAccepted env sid k (chatInitState env sid msg db₀ t₀)) hdone'
        (by rw [hturn']; exact hc)
      rw [hturn'] at hstep
      exact ⟨hstep.2.2.1, hstep.2.2.2.1⟩
    · have hstep := runTurns_done_step env sid f
        (iterateAccepted env sid k (chatInitState env sid msg db₀ t₀)) hdone'
        (by rw [hturn']; exact hd)
      rw [hturn'] at hstep
      exact ⟨hstep.2.2.1, hstep.2.2.2.1⟩
  refine ⟨?_, ?_, ?_⟩
  · show (runTurns env sid MULTI_TURN_ITERATION_MAX
      (chatInitState env sid msg db₀ t₀)).final_query = _
    rw [hfull]
    exact hq.1
  · intro hqep
    show (runTurns env sid MULTI_TURN_ITERATION_MAX
      (chatInitState env sid msg db₀ t₀)).final_query = _
    rw [hfull, hq.1, hqep]
  · show (runTurns env sid MULTI_TURN_ITERATION_MAX
      (chatInitState env sid msg db₀ t₀)).turn_count = _
    rw [hfull]
    exact hq.2

/-- C10: when the Safety Gate rejects the `sql` decision of turn `k + 1`
(1-based) after `k ≥ 1` accepted `sql` turns, the response pairs mismatched
fields: `last_query` is the rejected, never-executed query, while
`last_results` still holds the results of the last earlier accepted turn,
because `final_results` is not updated on the rejection path. -/
theorem C10_rejection_keeps_stale_results (env : ChatEnv) (sid msg : String)
    (db₀ : List StoredMsg) (t₀ k : Nat)
    (hk1 : 1 ≤ k) (hk : k < MULTI_TURN_ITERATION_MAX)
    (hacc : ∀ i < k, acceptedSql (env.ds i))
    (hty : (env.ds k).type? = some "sql")
    (hne : (env.ds k).query.pyStrip ≠ "")
    (hgate : is_read_only_sql (env.ds k).query = false) :
    (assistant_endpoint env sid msg db₀ t₀).resp.last_query = (env.ds k).query ∧
    (assistant_endpoint env sid msg db₀ t₀).resp.last_results =
      env.exec (env.ds (k - 1)).query ∧
    (env.ds k).query ∉ (assistant_endpoint env sid msg db₀ t₀).executed := by
  obtain ⟨k', rfl⟩ : ∃ k', k = k' + 1 := ⟨k - 1, by omega⟩
  have hpre := runTurns_accepted_prefix env sid (k' + 1) MULTI_TURN_ITERATION_MAX
    (chatInitState env sid msg db₀ t₀) (le_of_lt hk) (by simp)
    (by intro i hi; simpa using hacc i hi)
  obtain ⟨f, hf⟩ : ∃ f, MULTI_TURN_ITERATION_MAX - (k' + 1) = f + 1 :=
    ⟨MULTI_TURN_ITERATION_MAX - (k' + 1) - 1, by omega⟩
  have hdone' : (iterateAccepted env sid (k' + 1) (chatInitState env sid msg db₀ t₀)).done = false := by
    rw [iterateAccepted_done]; simp
  have hturn' : (iterateAccepted env sid (k' + 1) (chatInitState env sid msg db₀ t₀)).turn_count = k' + 1 := by
    rw [iterateAccepted_turn_count]; simp
  have hres : (iterateAccepted env sid (k' + 1) (chatInitState env sid msg db₀ t₀)).final_results =
      env.exec (env.ds k').query := by
    rw [iterateAccepted_final_results]
    simp
  have hrej := runTurns_reject_step env sid f
    (iterateAccepted env sid (k' + 1) (chatInitState env sid msg db₀ t₀)) hdone'
    (by rw [hturn']; exact hty) (by rw [hturn']; exact hne)
    (by rw [hturn']; exact hgate)
  rw [hturn'] at hrej
  have hfull : runTurns env sid MULTI_TURN_ITERATION_MAX
      (chatInitState env sid msg db₀ t₀) =
      runTurns env sid (f + 1)
        (iterateAccepted env sid (k' + 1) (chatInitState env sid msg db₀ t₀)) := by
    rw [hpre, hf]
  have hexec : (iterateAccepted env sid (k' + 1) (chatInitState env sid msg db₀ t₀)).executed =
      (List.range (k' + 1)).map (fun i => (env.ds i).query) := by
    rw [iterateAccepted_executed]
    simp only [chatInitState_executed, chatInitState_turn_count, Nat.zero_add,
      List.nil_append]
  refine ⟨?_, ?_, ?_⟩
  · show (runTurns env sid MULTI_TURN_ITERATION_MAX
      (chatInitState env sid msg db₀ t₀)).final_query = _
    rw [hfull]
    exact hrej.2.2.1
  · show (runTurns env sid MULTI_TURN_ITERATION_MAX
      (chatInitState env sid msg db₀ t₀)).final_results = _
    rw [hfull, hrej.2.2.2.2.1, hres]
    simp
  · show (env.ds (k' + 1)).query ∉ (runTurns env sid MULTI_TURN_ITERATION_MAX
      (chatInitState env sid msg db₀ t₀)).executed
    rw [hfull, hrej.2.2.2.2.2.2.1, hexec]
    exact prefix_queries_all_read_only env (k' + 1) hacc hgate

/-! ### Store effects of the loop (for seeding idempotence) -/

/-- Shape of every row the loop itself appends for a session: an `assistant`
message, or a `system` message holding serialized query results; stamped
within the window `[lo, hi)`. -/
def LoopRow (env : ChatEnv) (sid : String) (lo hi : Nat) (r : StoredMsg) : Prop :=
  r.session_id = sid ∧ lo ≤ r.created_at ∧ r.created_at < hi ∧
  (r.role = "assistant" ∨ (r.role = "system" ∧ ∃ rs, r.content = env.serializeResults rs))

theorem sqlTurnStep_db (env : ChatEnv) (sid : String) (d : Decision)
    (st : LoopState) :
    (sqlTurnStep env sid d st).db =
      st.db ++ [⟨sid, "assistant",
          env.merge d.reply d.query (env.exec d.query)
            (env.report d.query (env.exec d.query)), st.now⟩] ++
        [⟨sid, "system", env.serializeResults (env.exec d.query), st.now + 1⟩] := rfl

theorem sqlTurnStep_now (env : ChatEnv) (sid : String) (d : Decision)
    (st : LoopState) :
    (sqlTurnStep env sid d st).now = st.now + 1 + 1 := rfl

/-- `DbExt env sid st st'`: state `st'` extends `st` by appending only
`LoopRow`-shaped rows, stamped in `[st.now, st'.now)` in non-decreasing
order. -/
def DbExt (env : ChatEnv) (sid : String) (st st' : LoopState) : Prop :=
  ∃ tail, st'.db = st.db ++ tail ∧ st.now ≤ st'.now ∧
    tail.Pairwise (fun a b => a.created_at ≤ b.created_at) ∧
    ∀ r ∈ tail, LoopRow env sid st.now st'.now r

theorem DbExt_refl (env : ChatEnv) (sid : String) (st : LoopState) :
    DbExt env sid st st :=
  ⟨[], by simp, le_refl _, by simp, by simp⟩

theorem DbExt_congr (env : ChatEnv) (sid : String) (st₁ st₂ st₃ : LoopState)
    (hdb : st₃.db = st₂.db) (hnow : st₃.now = st₂.now)
    (h : DbExt env sid st₁ st₂) : DbExt env sid st₁ st₃ := by
  rcases h with ⟨tail, h1, h2, h3, h4⟩
  exact ⟨tail, by rw [hdb, h1], by rw [hnow]; exact h2, h3, by rw [hnow]; exact h4⟩

theorem DbExt_trans (env : ChatEnv) (sid : String) (st₁ st₂ st₃ : LoopState)
    (h12 : DbExt env sid st₁ st₂) (h23 : DbExt env sid st₂ st₃) :
    DbExt env sid st₁ st₃ := by
  rcases h12 with ⟨t1, hdb1, hle1, hpw1, hmem1⟩
  rcases h23 with ⟨t2, hdb2, hle2, hpw2, hmem2⟩
  refine ⟨t1 ++ t2, by rw [hdb2, hdb1, List.append_assoc], le_trans hle1 hle2, ?_, ?_⟩
  · rw [List.pairwise_append]
    refine ⟨hpw1, hpw2, ?_⟩
    intro a ha b hb
    have h1 := hmem1 a ha
    have h2 := hmem2 b hb
    simp only [LoopRow] at h1 h2
    omega
  · intro r hr
    rcases List.mem_append.mp hr with h | h
    · have h1 := hmem1 r h
      simp only [LoopRow] at h1 ⊢
      refine ⟨h1.1, h1.2.1, by omega, h1.2.2.2⟩
    · have h2 := hmem2 r h
      simp only [LoopRow] at h2 ⊢
      refine ⟨h2.1, by omega, h2.2.2.1, h2.2.2.2⟩

/-- A state that appended exactly one `assistant` row for this session at the
current clock is a `DbExt`. -/
theorem DbExt_single_assistant (env : ChatEnv) (sid : String)
    (st st' : LoopState) (c : String)
    (hdb : st'.db = st.db ++ [⟨sid, "assistant", c, st.now⟩])
    (hnow : st'.now = st.now + 1) : DbExt env sid st st' := by
  refine ⟨[⟨sid, "assistant", c, st.now⟩], hdb, by rw [hnow]; omega, by simp, ?_⟩
  intro r hr
  simp only [List.mem_singleton] at hr
  subst hr
  refine ⟨rfl, le_refl _, ?_, Or.inl rfl⟩
  rw [hnow]
  show st.now < st.now + 1
  omega

/-- The accepted-`sql` branch body appends one `assistant` row and one
serialized-results `system` row. -/
theorem DbExt_sqlTurnStep (env : ChatEnv) (sid : String) (d : Decision)
    (st : LoopState) : DbExt env sid st (sqlTurnStep env sid d st) := by
  refine ⟨[⟨sid, "assistant",
      env.merge d.reply d.query (env.exec d.query)
        (env.report d.query (env.exec d.query)), st.now⟩,
    ⟨sid, "system", env.serializeResults (env.exec d.query), st.now + 1⟩],
    ?_, ?_, ?_, ?_⟩
  · rw [sqlTurnStep_db]
    simp
  · rw [sqlTurnStep_now]
    omega
  · simp
  · intro r hr
    simp only [List.mem_cons, List.mem_singleton] at hr
    rcases hr with rfl | rfl | h
    · refine ⟨rfl, le_refl _, ?_, Or.inl rfl⟩
      rw [sqlTurnStep_now]
      show st.now < st.now + 1 + 1
      omega
    · refine ⟨rfl, ?_, ?_, Or.inr ⟨rfl, env.exec d.query, rfl⟩⟩
      · show st.now ≤ st.now + 1
        omega
      · rw [sqlTurnStep_now]
        show st.now + 1 < st.now + 1 + 1
        omega
    · cases h

/-- Everything the loop appends to the store is a `LoopRow` for this session,
appended after the existing rows, with non-decreasing stamps below the final
clock. -/
theorem runTurns_db_spec (env : ChatEnv) (sid : String) (fuel : Nat) :
    ∀ st : LoopState, DbExt env sid st (runTurns env sid fuel st) := by
  induction fuel with
  | zero =>
    intro st
    rw [runTurns]
    exact DbExt_refl env sid st
  | succ fuel ih =>
    intro st
    cases hdone : st.done with
    | true =>
      simp only [runTurns, hdone, if_true]
      exact DbExt_refl env sid st
    | false =>
      simp only [runTurns, hdone, Bool.false_eq_true, if_false]
      split
      · exact DbExt_single_assistant env sid st _
          (env.serializeDecision (env.ds st.turn_count)) rfl rfl
      · split
        · split
          · -- accepted sql turn: compose the three appends with the
            -- recursive call
            refine DbExt_trans env sid _ _ _ ?_ (ih _)
            refine DbExt_trans env sid _ _ _ ?_ (DbExt_sqlTurnStep env sid _ _)
            exact DbExt_single_assistant env sid st _
              (env.serializeDecision (env.ds st.turn_count)) rfl rfl
          · refine DbExt_congr env sid st _ _ rfl rfl ?_
            exact DbExt_single_assistant env sid st _
              (env.serializeDecision (env.ds st.turn_count)) rfl rfl
        · split
          · exact DbExt_single_assistant env sid st _
              (env.serializeDecision (env.ds st.turn_count)) rfl rfl
          · exact DbExt_single_assistant env sid st _
              (env.serializeDecision (env.ds st.turn_count)) rfl rfl

/-! ### Session seeding (`C8`) -/

/-- Number of stored rows that are the seeded system prompt of a session. -/
def countSeed (db : List StoredMsg) (sid prompt : String) : Nat :=
  (db.filter (fun r =>
    decide (r.session_id = sid ∧ r.role = "system" ∧ r.content = prompt))).length

theorem countSeed_append (a b : List StoredMsg) (sid prompt : String) :
    countSeed (a ++ b) sid prompt = countSeed a sid prompt + countSeed b sid prompt := by
  simp [countSeed]

theorem countSeed_zero_of_fresh (db : List StoredMsg) (sid prompt : String)
    (h : sessionRows db sid = []) : countSeed db sid prompt = 0 := by
  have h2 : ∀ r ∈ db, ¬ (r.session_id = sid) := by
    intro r hr hs
    have := List.filter_eq_nil_iff.mp h r hr
    simp [hs] at this
  unfold countSeed
  rw [List.length_eq_zero, List.filter_eq_nil_iff]
  intro r hr
  simp only [decide_eq_true_eq]
  rintro ⟨h1, _, _⟩
  exact h2 r hr h1

theorem countSeed_zero_of_loopRows (env : ChatEnv) (sid : String) (lo hi : Nat)
    (prompt : String) (tail : List StoredMsg)
    (htail : ∀ r ∈ tail, LoopRow env sid lo hi r)
    (hser : ∀ rs, env.serializeResults rs ≠ prompt) :
    countSeed tail sid prompt = 0 := by
  unfold countSeed
  rw [List.length_eq_zero, List.filter_eq_nil_iff]
  intro r hr
  simp only [decide_eq_true_eq]
  rintro ⟨h1, h2, h3⟩
  rcases (htail r hr).2.2.2 with ha | ⟨hs, rs, hc⟩
  · rw [ha] at h2
    exact absurd h2 (by decide)
  · rw [hc] at h3
    exact hser rs h3

theorem sessionRows_of_all (l : List StoredMsg) (sid : String)
    (h : ∀ r ∈ l, r.session_id = sid) : sessionRows l sid = l := by
  unfold sessionRows
  rw [List.filter_eq_self]
  intro r hr
  simp [h r hr]

theorem get_conversation_eq_nil_iff (db : List StoredMsg) (sid : String) :
    get_conversation db sid = [] ↔ sessionRows db sid = [] := by
  unfold get_conversation
  rw [List.map_eq_nil_iff, sortByStamp_eq_nil_iff]

/-- The loop's final store and clock extend the initial ones per
`runTurns_db_spec`, stated at the endpoint level. -/
theorem assistant_endpoint_db_spec (env : ChatEnv) (sid msg : String)
    (db₀ : List StoredMsg) (t₀ : Nat) :
    ∃ tail,
      (assistant_endpoint env sid msg db₀ t₀).db =
        (chatInitState env sid msg db₀ t₀).db ++ tail ∧
      (chatInitState env sid msg db₀ t₀).now ≤
        (assistant_endpoint env sid msg db₀ t₀).now ∧
      tail.Pairwise (fun a b => a.created_at ≤ b.created_at) ∧
      ∀ r ∈ tail, LoopRow env sid (chatInitState env sid msg db₀ t₀).now
        (assistant_endpoint env sid msg db₀ t₀).now r :=
  runTurns_db_spec env sid MULTI_TURN_ITERATION_MAX (chatInitState env sid msg db₀ t₀)

theorem chatInitState_db_fresh (env : ChatEnv) (sid msg : String)
    (db₀ : List StoredMsg) (t₀ : Nat) (h : sessionRows db₀ sid = []) :
    (chatInitState env sid msg db₀ t₀).db =
      db₀ ++ [⟨sid, "system", env.sysPrompt, t₀⟩, ⟨sid, "user", msg, t₀ + 1⟩] ∧
    (chatInitState env sid msg db₀ t₀).now = t₀ + 1 + 1 := by
  have hconv : get_conversation db₀ sid = [] :=
    (get_conversation_eq_nil_iff db₀ sid).mpr h
  constructor <;> simp [chatInitState, insert_message, hconv]

theorem chatInitState_db_existing (env : ChatEnv) (sid msg : String)
    (db₀ : List StoredMsg) (t₀ : Nat) (h : get_conversation db₀ sid ≠ []) :
    (chatInitState env sid msg db₀ t₀).db = db₀ ++ [⟨sid, "user", msg, t₀⟩] ∧
    (chatInitState env sid msg db₀ t₀).now = t₀ + 1 := by
  constructor <;> simp [chatInitState, insert_message, h]

/-- C8: session seeding is idempotent. On a brand-new session id the `/chat`
flow inserts the fixed system prompt exactly once, as the session's first
message; a second `/chat` call on the same id loads a non-empty history, does
not re-seed, and the session still holds exactly one seeded system prompt,
still as its first message. -/
theorem C8_seeding_idempotent (env env₂ : ChatEnv) (sid msg msg₂ : String)
    (db₀ : List StoredMsg) (t₀ : Nat)
    (hfresh : sessionRows db₀ sid = [])
    (hser : ∀ rs, env.serializeResults rs ≠ env.sysPrompt)
    (hser₂ : ∀ rs, env₂.serializeResults rs ≠ env.sysPrompt) :
    countSeed (assistant_endpoint env sid msg db₀ t₀).db sid env.sysPrompt = 1 ∧
    (get_conversation (assistant_endpoint env sid msg db₀ t₀).db sid).head? =
      some ⟨"system", env.sysPrompt⟩ ∧
    get_conversation (assistant_endpoint env sid msg db₀ t₀).db sid ≠ [] ∧
    countSeed (assistant_endpoint env₂ sid msg₂
      (assistant_endpoint env sid msg db₀ t₀).db
      (assistant_endpoint env sid msg db₀ t₀).now).db sid env.sysPrompt = 1 ∧
    (get_conversation (assistant_endpoint env₂ sid msg₂
      (assistant_endpoint env sid msg db₀ t₀).db
      (assistant_endpoint env sid msg db₀ t₀).now).db sid).head? =
      some ⟨"system", env.sysPrompt⟩ := by
  obtain ⟨hinit₁db, hinit₁now⟩ := chatInitState_db_fresh env sid msg db₀ t₀ hfresh
  obtain ⟨tail₁, hdb₁, hle₁, hpw₁, hmem₁⟩ := assistant_endpoint_db_spec env sid msg db₀ t₀
  rw [hinit₁db] at hdb₁
  rw [hinit₁now] at hle₁ hmem₁
  set out₁ := assistant_endpoint env sid msg db₀ t₀ with hout₁
  have hLR₁ : ∀ r ∈ tail₁, r.session_id = sid ∧ t₀ + 1 + 1 ≤ r.created_at ∧
      r.created_at < out₁.now := by
    intro r hr
    have h := hmem₁ r hr
    simp only [LoopRow] at h
    exact ⟨h.1, h.2.1, h.2.2.1⟩
  have hsr₁ : sessionRows out₁.db sid =
      ⟨sid, "system", env.sysPrompt, t₀⟩ :: ⟨sid, "user", msg, t₀ + 1⟩ :: tail₁ := by
    rw [hdb₁, sessionRows_append, sessionRows_append, hfresh,
      sessionRows_of_all tail₁ sid (fun r hr => (hLR₁ r hr).1),
      sessionRows_of_all [⟨sid, "system", env.sysPrompt, t₀⟩,
        ⟨sid, "user", msg, t₀ + 1⟩] sid ?_]
    · simp
    · intro r hr
      simp only [List.mem_cons, List.not_mem_nil, or_false] at hr
      rcases hr with rfl | rfl <;> rfl
  have hcount₁ : countSeed out₁.db sid env.sysPrompt = 1 := by
    rw [hdb₁, countSeed_append, countSeed_append,
      countSeed_zero_of_fresh db₀ sid env.sysPrompt hfresh,
      countSeed_zero_of_loopRows env sid _ _ _ tail₁ hmem₁ hser]
    simp [countSeed]
  have hbound₁ : ∀ r ∈ sessionRows out₁.db sid, r.created_at < out₁.now := by
    rw [hsr₁]
    intro r hr
    simp only [List.mem_cons] at hr
    rcases hr with rfl | rfl | hr
    · show t₀ < out₁.now
      omega
    · show t₀ + 1 < out₁.now
      omega
    · exact (hLR₁ r hr).2.2
  have hpwsr₁ : (sessionRows out₁.db sid).Pairwise
      (fun a b => a.created_at ≤ b.created_at) := by
    rw [hsr₁, List.pairwise_cons]
    refine ⟨?_, ?_⟩
    · intro b hb
      simp only [List.mem_cons] at hb
      rcases hb with rfl | hb
      · show t₀ ≤ t₀ + 1
        omega
      · have := (hLR₁ b hb).2.1
        show t₀ ≤ b.created_at
        omega
    · rw [List.pairwise_cons]
      refine ⟨?_, hpw₁⟩
      intro b hb
      have := (hLR₁ b hb).2.1
      show t₀ + 1 ≤ b.created_at
      omega
  have hsort₁ : sortByStamp (sessionRows out₁.db sid) = sessionRows out₁.db sid :=
    sortByStamp_eq_self _ hpwsr₁
  have hhead₁ : (get_conversation out₁.db sid).head? =
      some ⟨"system", env.sysPrompt⟩ := by
    unfold get_conversation
    rw [hsort₁, hsr₁]
    rfl
  have hne₁ : get_conversation out₁.db sid ≠ [] := by
    intro h
    have h2 := (get_conversation_eq_nil_iff out₁.db sid).mp h
    rw [hsr₁] at h2
    exact List.noConfusion h2
  obtain ⟨hinit₂db, hinit₂now⟩ :=
    chatInitState_db_existing env₂ sid msg₂ out₁.db out₁.now hne₁
  obtain ⟨tail₂, hdb₂, hle₂, hpw₂, hmem₂⟩ :=
    assistant_endpoint_db_spec env₂ sid msg₂ out₁.db out₁.now
  rw [hinit₂db] at hdb₂
  rw [hinit₂now] at hle₂ hmem₂
  set out₂ := assistant_endpoint env₂ sid msg₂ out₁.db out₁.now with hout₂
  have hLR₂ : ∀ r ∈ tail₂, r.session_id = sid ∧ out₁.now + 1 ≤ r.created_at ∧
      r.created_at < out₂.now := by
    intro r hr
    have h := hmem₂ r hr
    simp only [LoopRow] at h
    exact ⟨h.1, h.2.1, h.2.2.1⟩
  have hsr₂ : sessionRows out₂.db sid =
      sessionRows out₁.db sid ++ ⟨sid, "user", msg₂, out₁.now⟩ :: tail₂ := by
    rw [hdb₂, sessionRows_append, sessionRows_append,
      sessionRows_of_all tail₂ sid (fun r hr => (hLR₂ r hr).1),
      sessionRows_of_all [⟨sid, "user", msg₂, out₁.now⟩] sid ?_]
    · simp
    · intro r hr
      simp only [List.mem_singleton] at hr
      subst hr
      rfl
  have hcount₂ : countSeed out₂.db sid env.sysPrompt = 1 := by
    rw [hdb₂, countSeed_append, countSeed_append, hcount₁,
      countSeed_zero_of_loopRows env₂ sid _ _ _ tail₂ hmem₂ hser₂]
    simp [countSeed]
  have hpwsr₂ : (sessionRows out₂.db sid).Pairwise
      (fun a b => a.created_at ≤ b.created_at) := by
    rw [hsr₂, List.pairwise_append]
    refine ⟨hpwsr₁, ?_, ?_⟩
    · rw [List.pairwise_cons]
      refine ⟨?_, hpw₂⟩
      intro b hb
      have := (hLR₂ b hb).2.1
      show out₁.now ≤ b.created_at
      omega
    · intro a ha b hb
      have ha' := hbound₁ a ha
      simp only [List.mem_cons] at hb
      rcases hb with rfl | hb
      · show a.created_at ≤ out₁.now
        omega
      · have := (hLR₂ b hb).2.1
        omega
  have hsort₂ : sortByStamp (sessionRows out₂.db sid) = sessionRows out₂.db sid :=
    sortByStamp_eq_self _ hpwsr₂
  have hhead₂ : (get_conversation out₂.db sid).head? =
      some ⟨"system", env.sysPrompt⟩ := by
    unfold get_conversation
    rw [hsort₂, hsr₂, hsr₁]
    rfl
  exact ⟨hcount₁, hhead₁, hne₁, hcount₂, hhead₂⟩

/-! ### Concrete environments for witnesses -/

/-- A concrete environment whose decision stream issues the same accepted
read-only `sql` decision forever. -/
def envAllSql : ChatEnv :=
  { ds := fun _ => ⟨some "sql", "ok", "SELECT * FROM Products"⟩
    exec := fun _ => [[("c", "5")]]
    report := fun _ _ => "report"
    merge := fun _ _ _ _ => "merged"
    serializeDecision := fun _ => "rawdecision"
    serializeResults := fun _ => "rawresults"
    sysPrompt := "SYSTEM PROMPT" }

/-- One accepted `sql` turn, then a `sql` decision the gate rejects. -/
def envSqlThenReject : ChatEnv :=
  { envAllSql with
    ds := fun i =>
      if i = 0 then ⟨some "sql", "ok", "SELECT * FROM Products"⟩
      else ⟨some "sql", "bad", "DELETE FROM Products"⟩ }

/-- One accepted `sql` turn, then a `sql` decision with a blank query. -/
def envSqlThenBlank : ChatEnv :=
  { envAllSql with
    ds := fun i =>
      if i = 0 then ⟨some "sql", "ok", "SELECT * FROM Products"⟩
      else ⟨some "sql", "r", "   "⟩ }

/-- One accepted `sql` turn, then a terminal `done` decision. -/
def envSqlThenDone : ChatEnv :=
  { envAllSql with
    ds := fun i =>
      if i = 0 then ⟨some "sql", "ok", "SELECT * FROM Products"⟩
      else ⟨some "done", "bye", ""⟩ }

theorem C2_gate_rejection_halts_witness :
    (∀ i < 1, acceptedSql (envSqlThenReject.ds i)) ∧
    (envSqlThenReject.ds 1).type? = some "sql" ∧
    (envSqlThenReject.ds 1).query.pyStrip ≠ "" ∧
    is_read_only_sql (envSqlThenReject.ds 1).query = false ∧
    ((assistant_endpoint envSqlThenReject "s1" "hi" [] 0).resp.final_message =
        "Error: Attempted non-read-only query." ∧
      (assistant_endpoint envSqlThenReject "s1" "hi" [] 0).resp.type = some "chat" ∧
      (assistant_endpoint envSqlThenReject "s1" "hi" [] 0).resp.turns_executed = 1 + 1 ∧
      (assistant_endpoint envSqlThenReject "s1" "hi" [] 0).executed =
        (List.range 1).map (fun i => (envSqlThenReject.ds i).query) ∧
      (envSqlThenReject.ds 1).query ∉
        (assistant_endpoint envSqlThenReject "s1" "hi" [] 0).executed) :=
  ⟨by decide, by decide, by decide, by decide,
    C2_gate_rejection_halts envSqlThenReject "s1" "hi" [] 0 1 (by decide)
      (by decide) (by decide) (by decide) (by decide)⟩

theorem C3_iteration_cap_witness :
    (∀ i < MULTI_TURN_ITERATION_MAX, acceptedSql (envAllSql.ds i)) ∧
    (MULTI_TURN_ITERATION_MAX = 8 ∧
      (assistant_endpoint envAllSql "s1" "hi" [] 0).resp.turns_executed = 8 ∧
      (assistant_endpoint envAllSql "s1" "hi" [] 0).resp.sql_history.length = 8) :=
  ⟨by decide, C3_iteration_cap envAllSql "s1" "hi" [] 0 (by decide)⟩

theorem C4_fallback_turn_witness :
    (∀ i < 1, acceptedSql (envSqlThenBlank.ds i)) ∧
    ((envSqlThenBlank.ds 1).type? = some "sql" ∧
      (envSqlThenBlank.ds 1).query.pyStrip = "") ∧
    ((assistant_endpoint envSqlThenBlank "s1" "hi" [] 0).resp.final_message =
        "Got an unexpected response from GPT." ∧
      (assistant_endpoint envSqlThenBlank "s1" "hi" [] 0).resp.turns_executed = 1 + 1 ∧
      (assistant_endpoint envSqlThenBlank "s1" "hi" [] 0).executed =
        (List.range 1).map (fun i => (envSqlThenBlank.ds i).query)) :=
  ⟨by decide, by decide,
    C4_fallback_turn envSqlThenBlank "s1" "hi" [] 0 1 (by decide) (by decide)
      (Or.inl (by decide))⟩

theorem C5_terminal_last_query_witness :
    (∀ i < 1, acceptedSql (envSqlThenDone.ds i)) ∧
    (envSqlThenDone.ds 1).type?.getD "chat" = "done" ∧
    ((assistant_endpoint envSqlThenDone "s1" "hi" [] 0).resp.last_query =
        (envSqlThenDone.ds 1).query ∧
      ((envSqlThenDone.ds 1).query = "" →
        (assistant_endpoint envSqlThenDone "s1" "hi" [] 0).resp.last_query = "") ∧
      (assistant_endpoint envSqlThenDone "s1" "hi" [] 0).resp.turns_executed = 1 + 1) :=
  ⟨by decide, by decide,
    C5_terminal_last_query envSqlThenDone "s1" "hi" [] 0 1 (by decide) (by decide)
      (Or.inr (by decide))⟩

theorem C10_rejection_keeps_stale_results_witness :
    (∀ i < 1, acceptedSql (envSqlThenReject.ds i)) ∧
    is_read_only_sql (envSqlThenReject.ds 1).query = false ∧
    ((assistant_endpoint envSqlThenReject "s2" "hi" [] 0).resp.last_query =
        (envSqlThenReject.ds 1).query ∧
      (assistant_endpoint envSqlThenReject "s2" "hi" [] 0).resp.last_results =
        envSqlThenReject.exec (envSqlThenReject.ds (1 - 1)).query ∧
      (envSqlThenReject.ds 1).query ∉
        (assistant_endpoint envSqlThenReject "s2" "hi" [] 0).executed) :=
  ⟨by decide, by decide,
    C10_rejection_keeps_stale_results envSqlThenReject "s2" "hi" [] 0 1
      (by decide) (by decide) (by decide) (by decide) (by decide) (by decide)⟩

theorem C8_seeding_idempotent_witness :
    sessionRows [] "s1" = [] ∧
    (∀ rs, envAllSql.serializeResults rs ≠ envAllSql.sysPrompt) ∧
    (countSeed (assistant_endpoint envAllSql "s1" "hi" [] 0).db "s1"
        envAllSql.sysPrompt = 1 ∧
      (get_conversation (assistant_endpoint envAllSql "s1" "hi" [] 0).db "s1").head? =
        some ⟨"system", envAllSql.sysPrompt⟩ ∧
      get_conversation (assistant_endpoint envAllSql "s1" "hi" [] 0).db "s1" ≠ [] ∧
      countSeed (assistant_endpoint envAllSql "s1" "again"
        (assistant_endpoint envAllSql "s1" "hi" [] 0).db
        (assistant_endpoint envAllSql "s1" "hi" [] 0).now).db "s1"
        envAllSql.sysPrompt = 1 ∧
      (get_conversation (assistant_endpoint envAllSql "s1" "again"
        (assistant_endpoint envAllSql "s1" "hi" [] 0).db
        (assistant_endpoint envAllSql "s1" "hi" [] 0).now).db "s1").head? =
        some ⟨"system", envAllSql.sysPrompt⟩) :=
  ⟨rfl, by intro rs; show ¬("rawresults" = "SYSTEM PROMPT"); decide,
    C8_seeding_idempotent envAllSql envAllSql "s1" "hi" "again" [] 0 rfl
      (by intro rs; show ¬("rawresults" = "SYSTEM PROMPT"); decide)
      (by intro rs; show ¬("rawresults" = "SYSTEM PROMPT"); decide)⟩
